import Mathlib

/-!
# Verification of the svgeditor render core (`src/unix.py`, `src/surface.py`)

Shallow embedding of the SVG→PNG rendering core:

* the dimension resolver `SvgImageSurface._get_svg_dimensions`, including
  faithful executable models of the three Python regular expressions it uses
  (leftmost search, greedy star with backtracking);
* the constructor validation in `SvgImageSurface.__init__`;
* the in-memory document type `XmlGraphic` (a `bytes` subclass whose
  constructor locates the root `svg` element via BeautifulSoup);
* the render session `_render` / `_cleanup_resources` / `_save` / `_tobytes`
  / `_stride`, modelled as functions from a native-call oracle to a result
  together with an acquire/release event trace.

Native libraries (cairo, librsvg) and the BeautifulSoup parser are external
capabilities; they are modelled as oracle parameters (a `Native` structure of
uninterpreted functions, and a `soup` function returning the root tag, if
any).  Null pointers are modelled as the value `0`.
-/

set_option autoImplicit false

namespace SvgEditor

/-! ## Python error taxonomy (`src/unix.py` exception classes, plus the
builtin exceptions the code can raise). -/

inductive PyErr where
  /-- Python `InvalidFileExtensionError`. -/
  | invalidFileExtensionError
  /-- Python `SVGParseError`. -/
  | svgParseError
  /-- Python `CairoRenderError`. -/
  | cairoRenderError
  /-- Python `SurfaceXmlRenderingFormatError`. -/
  | surfaceXmlFormatError
  /-- builtin `AttributeError` (e.g. `None.get(...)`) -/
  | attributeError
  /-- builtin `ValueError` (e.g. `float(...)` on a malformed numeral, or
  `_save` called with no output path) -/
  | valueError
  deriving DecidableEq, Repr

/-! ## Character classes of the Python regexes

`\d` is modelled as an ASCII decimal digit and `\s` as the ASCII whitespace
characters that `re` in Python matches (the documents handled here are ASCII). -/

def isDigitOrDot (c : Char) : Bool := c.isDigit || c = '.'

def isSpaceChar (c : Char) : Bool :=
  c = ' ' || c = '\t' || c = '\n' || c = '\r' || c = '\x0b' || c = '\x0c'

/-! ## A small backtracking matcher

The three patterns in `_get_svg_dimensions` are each a literal head, greedy
character-class stars, literal infixes and greedy `[\d.]+` captures.  The
combinators below reproduce Python `re` semantics for exactly these shapes:
`searchAux` tries every start position left to right (leftmost match wins),
and `starBack` consumes greedily, backtracking one character at a time. -/

/-- Greedy `X*` over the character class `p`, then the rest of the pattern
(`tail`).  Longest consumption is tried first, exactly as a greedy star. -/
def starBack {α : Type} (p : Char → Bool) (tail : List Char → Option α) :
    List Char → Option α
  | [] => tail []
  | c :: cs =>
    if p c then
      match starBack p tail cs with
      | some r => some r
      | none => tail (c :: cs)
    else tail (c :: cs)

/-- Match a literal string, returning the remainder. -/
def dropLit : List Char → List Char → Option (List Char)
  | [], cs => some cs
  | _ :: _, [] => none
  | l :: ls, c :: cs => if c = l then dropLit ls cs else none

/-- Maximal run of characters satisfying `p` (the run, then the rest). -/
def takeClass (p : Char → Bool) : List Char → List Char × List Char
  | [] => ([], [])
  | c :: cs =>
    if p c then
      let (a, b) := takeClass p cs
      (c :: a, b)
    else ([], c :: cs)

/-- A greedy `([\d.]+)` immediately followed by a character outside the class: the
greedy capture is exactly the maximal nonempty run. -/
def numPlus (cs : List Char) : Option (List Char × List Char) :=
  let (a, b) := takeClass isDigitOrDot cs
  if a = [] then none else some (a, b)

/-- Model of `re.search`: try an anchored match at every position, leftmost first. -/
def searchAux {α : Type} (m : List Char → Option α) : List Char → Option α
  | [] => m []
  | c :: cs =>
    match m (c :: cs) with
    | some r => some r
    | none => searchAux m cs

/-- Anchored `<svg[^>]*ATTR="([\d.]+)"` (for `ATTR` = `width` / `height`). -/
def matchAttrAt (attr : List Char) (cs : List Char) : Option (List Char) :=
  (dropLit "<svg".data cs).bind
    (starBack (fun c => c ≠ '>') fun s =>
      (dropLit (attr ++ '=' :: '"' :: []) s).bind fun s1 =>
        (numPlus s1).bind fun nr =>
          match nr.2 with
          | '"' :: _ => some nr.1
          | _ => none)

/-- Result of `re.search` of `<svg[^>]*width="([\d.]+)"` over the content, giving group 1. -/
def searchWidthAttr (content : List Char) : Option (List Char) :=
  searchAux (matchAttrAt "width".data) content

/-- Result of `re.search` of `<svg[^>]*height="([\d.]+)"` over the content, giving group 1. -/
def searchHeightAttr (content : List Char) : Option (List Char) :=
  searchAux (matchAttrAt "height".data) content

/-- Anchored `<svg[^>]*viewBox="[^"]*\s([\d.]+)\s([\d.]+)"`. -/
def matchViewBoxAt (cs : List Char) : Option (List Char × List Char) :=
  (dropLit "<svg".data cs).bind
    (starBack (fun c => c ≠ '>') fun s =>
      (dropLit "viewBox=\"".data s).bind
        (starBack (fun c => c ≠ '"') fun t =>
          match t with
          | c :: t1 =>
            if isSpaceChar c then
              (numPlus t1).bind fun nr1 =>
                match nr1.2 with
                | c2 :: t3 =>
                  if isSpaceChar c2 then
                    (numPlus t3).bind fun nr2 =>
                      match nr2.2 with
                      | '"' :: _ => some (nr1.1, nr2.1)
                      | _ => none
                  else none
                | [] => none
            else none
          | [] => none))

/-- Result of `re.search` of `<svg[^>]*viewBox="[^"]*\s([\d.]+)\s([\d.]+)"` over the content. -/
def searchViewBox (content : List Char) : Option (List Char × List Char) :=
  searchAux matchViewBoxAt content

/-- Anchored
`<svg[^>]*style="[^"]*width:\s*([\d.]+)px;[^"]*height:\s*([\d.]+)px;"`. -/
def matchStyleAt (cs : List Char) : Option (List Char × List Char) :=
  (dropLit "<svg".data cs).bind
    (starBack (fun c => c ≠ '>') fun s =>
      (dropLit "style=\"".data s).bind
        (starBack (fun c => c ≠ '"') fun t =>
          (dropLit "width:".data t).bind fun t1 =>
            (numPlus (takeClass isSpaceChar t1).2).bind fun nr1 =>
              (dropLit "px;".data nr1.2).bind
                (starBack (fun c => c ≠ '"') fun u =>
                  (dropLit "height:".data u).bind fun u1 =>
                    (numPlus (takeClass isSpaceChar u1).2).bind fun nr2 =>
                      (dropLit "px;\"".data nr2.2).map fun _ =>
                        (nr1.1, nr2.1))))

/-- Result of `re.search` of the style pattern (`<svg[^>]*style="[^"]*width:\s*([\d.]+)px;[^"]*height:\s*([\d.]+)px;"`) over the content. -/
def searchStyle (content : List Char) : Option (List Char × List Char) :=
  searchAux matchStyleAt content

/-! ## Python numeral conversion -/

/-- Value of a string of decimal digits. -/
def digitsValNat (ds : List Char) : ℕ :=
  ds.foldl (fun a c => 10 * a + (c.toNat - 48)) 0

/-- Split at the first dot, if any. -/
def splitDot : List Char → List Char × Option (List Char)
  | [] => ([], none)
  | c :: cs =>
    if c = '.' then ([], some cs)
    else
      let (a, b) := splitDot cs
      (c :: a, b)

/-- Python `float(s)` for a capture of `[\d.]+` (digits and dots, nonempty):
at most one dot and at least one digit, otherwise `ValueError` (`none`).
`float` is modelled exactly by a rational since these literals are finite
decimals and the resolver performs no arithmetic on them. -/
def pyFloat (s : List Char) : Option ℚ :=
  let (ip, r) := splitDot s
  match r with
  | none => if ip = [] then none else some (digitsValNat ip)
  | some fp =>
    if fp.contains '.' then none
    else if ip = [] ∧ fp = [] then none
    else some ((digitsValNat ip : ℚ) + (digitsValNat fp : ℚ) / (10 : ℚ) ^ fp.length)

/-! ## `SvgImageSurface._get_svg_dimensions` (src/unix.py lines 73-106)

The file read `open(self.from_file).read()` is modelled by the parameter
`fileContent`: `none` models an `IOError` (wrapped into `SVGParseError`),
`some content` the text of the file. -/

def getSvgDimensions (fileContent : Option (List Char))
    (width height : Option ℚ) : Except PyErr (ℚ × ℚ) :=
  match width, height with
  | some w, some h => .ok (w, h)
  | _, _ =>
    match fileContent with
    | none => .error .svgParseError
    | some content =>
      match searchWidthAttr content, searchHeightAttr content with
      | some ws, some hs =>
        match pyFloat ws, pyFloat hs with
        | some w, some h => .ok (w, h)
        | _, _ => .error .valueError
      | _, _ =>
        match searchViewBox content with
        | some vb =>
          match pyFloat vb.1, pyFloat vb.2 with
          | some a, some b => .ok (a, b)
          | _, _ => .error .valueError
        | none =>
          match searchStyle content with
          | some st =>
            match pyFloat st.1, pyFloat st.2 with
            | some a, some b => .ok (a, b)
            | _, _ => .error .valueError
          | none => .error .svgParseError

/-! ## BeautifulSoup and `XmlGraphic` (src/unix.py lines 31-41)

BeautifulSoup is an external library; its search for the root `svg` element is modelled by an
oracle `soup : List Char → Option Tag`.  A bs4 `Tag` defines `__bool__` to
return `True` unconditionally (a tag is truthy even with no contents), which
`tagTruthy` records. -/

structure Tag where
  attrs : List (String × String)
  numChildren : ℕ
  deriving DecidableEq

/-- Model of bs4 `Tag.get(key)`: the value of the attribute, or `None`. -/
def Tag.get (t : Tag) (k : String) : Option String :=
  (t.attrs.find? (fun p => p.1 = k)).map (fun p => p.2)

/-- bs4 `Tag.__bool__` returns `True` for every tag. -/
def tagTruthy (_ : Tag) : Bool := true

/-- A constructed `XmlGraphic` value: the raw bytes plus the `w`/`h`
attributes read from the root `svg` element at construction time. -/
structure XmlGraphicVal where
  xml : List Char
  w : Option String
  h : Option String
  deriving DecidableEq

/-- Model of `XmlGraphic.__init__`: parse the bytes, find the root `svg`
element, then read the
`width`/`height` attributes.  When no root `svg` element exists, `find`
the find returns `None` and the attribute lookup on `None` raises
`AttributeError`. -/
def xmlGraphicInit (soup : List Char → Option Tag) (xml : List Char) :
    Except PyErr XmlGraphicVal :=
  match soup xml with
  | none => .error .attributeError
  | some t => .ok ⟨xml, t.get "width", t.get "height"⟩

/-- Python `int(s)` for a string of decimal digits (`ValueError` otherwise;
the slice fed to it in `XmlGraphic.size` is digits in the intended use). -/
def pyIntDigits (s : List Char) : Option ℤ :=
  if s ≠ [] ∧ s.all Char.isDigit then some (digitsValNat s) else none

/-- Model of `XmlGraphic.size`: `int(self.w[:len(self.w)-2])` for each dimension —
the last two characters (the unit suffix) are dropped before conversion.
`self.w` being `None` (attribute absent) raises a builtin error (`none`). -/
def xmlGraphicSize (g : XmlGraphicVal) : Option (ℤ × ℤ) :=
  match g.w, g.h with
  | some w, some h =>
    match pyIntDigits w.data.dropLast.dropLast, pyIntDigits h.data.dropLast.dropLast with
    | some a, some b => some (a, b)
    | _, _ => none
  | _, _ => none

/-! ## `SvgImageSurface.__init__` (src/unix.py lines 46-71)

`_load_libraries` / `_define_function_types` only populate the process-wide
native bindings (an external collaborator concern) and are modelled as
no-ops; the observable behaviour of the constructor is the extension validation
and the dimension resolution. -/

inductive Source where
  | filePath (p : String)
  | embedded (g : XmlGraphicVal)
  deriving DecidableEq

/-- The constructed surface object: the fields `__init__` stores. -/
structure Cfg where
  from_file : Source
  to_file : Option String
  save_bg : Bool
  width : ℚ
  height : ℚ
  deriving DecidableEq

/-- Python `str.endswith(suffix)`. -/
def pyEndsWith (s suf : String) : Bool := List.isSuffixOf suf.data s.data

/-- Python truthiness of the optional `to_file` string (`None` and the empty
string are falsy). -/
def strTruthy : Option String → Bool
  | none => false
  | some s => s.data ≠ []

/-- Content handed to `open(self.from_file)`: the filesystem oracle `fs`
applied to the path.  For an embedded document the bytes themselves are used
as the path (Python `open` accepts a bytes path). -/
def sourceFileContent (fs : String → Option (List Char)) : Source → Option (List Char)
  | .filePath p => fs p
  | .embedded g => fs (String.mk g.xml)

/-- Model of `SvgImageSurface.__init__`: extension validation (only for a `str`
source), then dimension resolution. -/
def svgImageSurfaceInit (fs : String → Option (List Char)) (from_file : Source)
    (to_file : Option String) (save_bg : Bool) (width height : Option ℚ) :
    Except PyErr Cfg :=
  match from_file with
  | .filePath p =>
    if ¬ pyEndsWith p ".svg" then .error .invalidFileExtensionError
    else if strTruthy to_file ∧ ¬ pyEndsWith (to_file.getD "") ".png" then
      .error .invalidFileExtensionError
    else
      match getSvgDimensions (fs p) width height with
      | .error e => .error e
      | .ok wh => .ok ⟨from_file, to_file, save_bg, wh.1, wh.2⟩
  | .embedded g =>
    match getSvgDimensions (fs (String.mk g.xml)) width height with
    | .error e => .error e
    | .ok wh => .ok ⟨from_file, to_file, save_bg, wh.1, wh.2⟩

/-! ## The render session (src/unix.py lines 185-279)

Native calls are an oracle structure; pointers are natural numbers with `0`
as the null pointer.  Each operation returns its result together with the
trace of resource events it performed, in order. -/

inductive Res where
  | handle
  | context
  | surface
  deriving DecidableEq

inductive Event where
  /-- a native call returned a non-null resource -/
  | acquire (r : Res)
  /-- A release call (`cairo_destroy`, `cairo_surface_destroy` or `rsvg_handle_close`). -/
  | release (r : Res)
  /-- The `rsvg_handle_render_cairo` call. -/
  | renderCall
  /-- The `cairo_surface_write_to_png` call. -/
  | pngWrite
  /-- The `cairo_surface_write_to_png_stream` call. -/
  | pngStream
  /-- The `cairo_image_surface_get_stride` call. -/
  | strideRead
  deriving DecidableEq

/-- The native function table (cairo + librsvg), uninterpreted. -/
structure Native where
  loadFromFile : String → ℕ
  loadFromData : List Char → ℕ
  createSurface : ℕ → ℤ → ℤ → ℕ
  createContext : ℕ → ℕ
  renderCairo : ℕ → ℕ → ℤ
  writeToPng : ℕ → String → ℤ
  writeToPngStream : ℕ → ℤ
  getStride : ℕ → ℤ

/-- Python `int()` on a rational: truncation toward zero. -/
def ratTrunc (q : ℚ) : ℤ := if q < 0 then -((-q).floor) else q.floor

/-- Model of `_cleanup_resources` (lines 223-235): destroy the context, then the
surface, then close the handle, each only when non-null. -/
def cleanupResources (h c s : ℕ) : List Event :=
  (if c ≠ 0 then [Event.release .context] else []) ++
    (if s ≠ 0 then [Event.release .surface] else []) ++
      (if h ≠ 0 then [Event.release .handle] else [])

/-- Acquisition events of one `_render` run that got a non-null handle:
`cairo_image_surface_create` then `cairo_create` (an acquisition is recorded
when the call returns non-null). -/
def acquireTrace (s c : ℕ) : List Event :=
  [Event.acquire .handle] ++
    (if s ≠ 0 then [Event.acquire .surface] else []) ++
      (if c ≠ 0 then [Event.acquire .context] else [])

/-- The call `surface = cairo_image_surface_create(format, int(width), int(height))`,
with format `0x0001` when `save_bg` else `0x0000`. -/
def mkSurface (n : Native) (cfg : Cfg) : ℕ :=
  n.createSurface (if cfg.save_bg then 1 else 0) (ratTrunc cfg.width) (ratTrunc cfg.height)

/-- The call `context = cairo_create(surface)`. -/
def mkContext (n : Native) (cfg : Cfg) : ℕ :=
  n.createContext (mkSurface n cfg)

/-- Model of `_render` after the handle-producing branch: the null-handle check, the
surface/context creation, the render call, and on a non-success status the
cleanup before the error. -/
def renderAfterHandle (n : Native) (cfg : Cfg) (h : ℕ) :
    Except PyErr (ℕ × ℕ × ℕ) × List Event :=
  if h = 0 then (.error .cairoRenderError, [])
  else
    if n.renderCairo h (mkContext n cfg) ≠ 1 then
      (.error .cairoRenderError,
        acquireTrace (mkSurface n cfg) (mkContext n cfg) ++ [Event.renderCall] ++
          cleanupResources h (mkContext n cfg) (mkSurface n cfg))
    else
      (.ok (h, mkContext n cfg, mkSurface n cfg),
        acquireTrace (mkSurface n cfg) (mkContext n cfg) ++ [Event.renderCall])

/-- Model of `_render` (lines 185-221).  For an embedded document the code first
re-runs `XmlGraphic.__init__` on the bytes (which raises `AttributeError`
when no root `svg` element is found) and then tests the truthiness of the
found tag before loading from data; for a path source it loads from file. -/
def renderCore (soup : List Char → Option Tag) (n : Native) (cfg : Cfg) :
    Except PyErr (ℕ × ℕ × ℕ) × List Event :=
  match cfg.from_file with
  | .embedded g =>
    match soup g.xml with
    | none => (.error .attributeError, [])
    | some t =>
      if tagTruthy t then renderAfterHandle n cfg (n.loadFromData g.xml)
      else (.error .surfaceXmlFormatError, [])
  | .filePath p => renderAfterHandle n cfg (n.loadFromFile p)

/-- Model of `_save` (lines 237-251): require a truthy output path, render, write the
PNG, and release the triple in a `finally` on both outcomes. -/
def saveCore (soup : List Char → Option Tag) (n : Native) (cfg : Cfg) :
    Except PyErr Unit × List Event :=
  if ¬ strTruthy cfg.to_file then (.error .valueError, [])
  else
    match renderCore soup n cfg with
    | (.error e, tr) => (.error e, tr)
    | (.ok hcs, tr) =>
      let st := n.writeToPng hcs.2.2 (cfg.to_file.getD "")
      let clean := cleanupResources hcs.1 hcs.2.1 hcs.2.2
      if st ≠ 0 then (.error .cairoRenderError, tr ++ [Event.pngWrite] ++ clean)
      else (.ok (), tr ++ [Event.pngWrite] ++ clean)

/-- Model of `_tobytes` (lines 254-275): render, stream the PNG into a buffer (the
callback always succeeds), and release the triple in a `finally`. -/
def tobytesCore (soup : List Char → Option Tag) (n : Native) (cfg : Cfg) :
    Except PyErr Unit × List Event :=
  match renderCore soup n cfg with
  | (.error e, tr) => (.error e, tr)
  | (.ok hcs, tr) =>
    let st := n.writeToPngStream hcs.2.2
    let clean := cleanupResources hcs.1 hcs.2.1 hcs.2.2
    if st ≠ 0 then (.error .cairoRenderError, tr ++ [Event.pngStream] ++ clean)
    else (.ok (), tr ++ [Event.pngStream] ++ clean)

/-- Model of `_stride` (lines 277-279): render, read the stride of the surface, and
return it.  The code contains no release of the triple. -/
def strideCore (soup : List Char → Option Tag) (n : Native) (cfg : Cfg) :
    Except PyErr ℤ × List Event :=
  match renderCore soup n cfg with
  | (.error e, tr) => (.error e, tr)
  | (.ok hcs, tr) => (.ok (n.getStride hcs.2.2), tr ++ [Event.strideRead])

/-! The `SVGSurface` façade (src/surface.py) renames the operations. -/

/-- Facade `SVGSurface.save` = `self._save()`. -/
def svgSurfaceSave := @saveCore

/-- Facade `SVGSurface.tobytes` = `self._tobytes()`. -/
def svgSurfaceTobytes := @tobytesCore

/-- Facade `SVGSurface.stride` = `self._stride()`. -/
def svgSurfaceStride := @strideCore

/-! ## Trace accounting -/

/-- Occurrences of an event in a trace. -/
def countE (e : Event) : List Event → ℕ
  | [] => 0
  | x :: xs => (if x = e then 1 else 0) + countE e xs

/-- Every resource is acquired at most once and released exactly as many
times as it was acquired. -/
def releasesMatchAcquires (tr : List Event) : Prop :=
  ∀ r : Res,
    countE (Event.release r) tr = countE (Event.acquire r) tr ∧
      countE (Event.acquire r) tr ≤ 1

/-- Recognize release events. -/
def isReleaseEv : Event → Bool
  | .release _ => true
  | _ => false

/-- The release order `_cleanup_resources` performs when all three resources
are live: context, then surface, then document handle. -/
def releaseOrder : List Event :=
  [Event.release .context, Event.release .surface, Event.release .handle]

/-! ## Concrete fixtures (documents, oracles, configurations) -/

/-- Document `<svg width="100px" height="50px"></svg>` — unit-suffixed attributes. -/
def docPx : List Char := "<svg width=\"100px\" height=\"50px\"></svg>".data

/-- Document `<svg width="100" height="50"></svg>` — unitless numeric attributes. -/
def docPlain : List Char := "<svg width=\"100\" height=\"50\"></svg>".data

/-- Document `<svg viewBox="0 0 200 80"></svg>` — viewBox only. -/
def docViewBoxOnly : List Char := "<svg viewBox=\"0 0 200 80\"></svg>".data

/-- A BeautifulSoup oracle that finds no root `svg` element. -/
def soupNone : List Char → Option Tag := fun _ => none

/-- A native backend whose calls all succeed (handle 1, surface 2,
context 3, render status 1, write status 0, stride 7). -/
def natOk : Native :=
  ⟨fun _ => 1, fun _ => 1, fun _ _ _ => 2, fun _ => 3, fun _ _ => 1,
    fun _ _ => 0, fun _ => 0, fun _ => 7⟩

/-- A native backend whose render call fails (status 0) after the three
resources were produced. -/
def natRenderFail : Native :=
  ⟨fun _ => 1, fun _ => 1, fun _ _ _ => 2, fun _ => 3, fun _ _ => 0,
    fun _ _ => 0, fun _ => 0, fun _ => 7⟩

/-- A file-path configuration with a truthy `.png` destination. -/
def cfgFileOut : Cfg := ⟨.filePath "a.svg", some "out.png", true, 10, 20⟩

/-- An embedded document (as constructed by `XmlGraphic.__init__` from
`<svg/>`, whose root tag carries no attributes). -/
def gEmpty : XmlGraphicVal := ⟨"<svg/>".data, none, none⟩

/-! # Theorems -/

/-- Helper: `getSvgDimensions` never signals a bad file extension: that error is
raised only by the validation in `__init__`. -/
theorem getSvgDimensions_ne_extension (fc : Option (List Char)) (w h : Option ℚ) :
    getSvgDimensions fc w h ≠ .error .invalidFileExtensionError := by
  unfold getSvgDimensions
  split
  · simp
  · split
    · simp
    · split
      · split <;> simp
      · split
        · split <;> simp
        · split
          · split <;> simp
          · simp

/-- C5: with both explicit dimensions, the resolver returns them unchanged
and never consults the document (the result is the same for every file
content, including an unreadable file). -/
theorem explicit_dimensions_returned_unchanged (fc : Option (List Char)) (w h : ℚ) :
    getSvgDimensions fc (some w) (some h) = .ok (w, h) := rfl

/-- C6: with no explicit size and a document whose root element has no
numeric width/height attributes but declares `viewBox="0 0 200 80"`, the
resolver returns the third and fourth viewBox tokens, `(200.0, 80.0)`. -/
theorem viewbox_fallback_returns_tokens :
    searchWidthAttr docViewBoxOnly = none ∧
      searchHeightAttr docViewBoxOnly = none ∧
      getSvgDimensions (some docViewBoxOnly) none none = .ok (200, 80) :=
  ⟨rfl, rfl, rfl⟩

/-- C3 counterexample: for `<svg width="100px" height="50px"></svg>` with no
explicit size, resolution does not return `(100.0, 50.0)`: the attribute
pattern `[\d.]+` rejects the unit suffix, no other signal exists, and the
resolver raises `SVGParseError`. -/
theorem px_attributes_fail_resolution :
    getSvgDimensions (some docPx) none none = .error .svgParseError ∧
      getSvgDimensions (some docPx) none none ≠ .ok (100, 50) :=
  ⟨rfl, fun hcontra => nomatch hcontra⟩

/-- C3 amended: the resolver does not strip unit suffixes — for
`width="100px" height="50px"` it fails with `SVGParseError`, and it returns
`(100.0, 50.0)` exactly when the attributes are unitless
(`width="100" height="50"`).  Unit-suffix stripping exists only in
`XmlGraphic.size`, which drops the last two characters before `int()`. -/
theorem dimension_resolution_requires_unitless_attributes :
    getSvgDimensions (some docPx) none none = .error .svgParseError ∧
      getSvgDimensions (some docPlain) none none = .ok (100, 50) ∧
      xmlGraphicSize ⟨docPx, some "100px", some "50px"⟩ = some (100, 50) :=
  ⟨rfl, rfl, rfl⟩

/-- C4 counterexample: a destination path not ending in `.png` is accepted
when the source is an embedded document — construction succeeds (the
destination check sits inside the `isinstance(from_file, str)` branch). -/
theorem embedded_destination_not_validated :
    svgImageSurfaceInit (fun _ => none) (.embedded gEmpty) (some "out.txt")
        true (some 1) (some 1) =
      .ok ⟨.embedded gEmpty, some "out.txt", true, 1, 1⟩ := rfl

/-- C4 amended: the destination-extension check runs only for file-path
sources: for a `.svg` file-path source with a truthy destination not ending
in `.png` the constructor rejects with `InvalidFileExtensionError` (before
dimension resolution or any native call), while for an embedded-document
source `InvalidFileExtensionError` is never raised. -/
theorem destination_validation_only_for_filepath_source :
    (∀ (fs : String → Option (List Char)) (p t : String) (b : Bool)
        (w h : Option ℚ), pyEndsWith p ".svg" = true → t.data ≠ [] →
        pyEndsWith t ".png" = false →
        svgImageSurfaceInit fs (.filePath p) (some t) b w h =
          .error .invalidFileExtensionError) ∧
      (∀ (fs : String → Option (List Char)) (g : XmlGraphicVal)
          (t : Option String) (b : Bool) (w h : Option ℚ),
        svgImageSurfaceInit fs (.embedded g) t b w h ≠
          .error .invalidFileExtensionError) := by
  constructor
  · intro fs p t b w h hsvg ht hpng
    simp [svgImageSurfaceInit, hsvg, hpng, strTruthy, ht]
  · intro fs g t b w h
    simp only [svgImageSurfaceInit]
    split
    · next e heq =>
      intro hcontra
      injection hcontra with hcontra
      rw [hcontra] at heq
      exact getSvgDimensions_ne_extension _ w h heq
    · simp

/-- Witness for the C4 amended theorem at a concrete request. -/
theorem destination_validation_only_for_filepath_source_witness :
    svgImageSurfaceInit (fun _ => none) (.filePath "a.svg") (some "out.txt")
        true none none = .error .invalidFileExtensionError :=
  destination_validation_only_for_filepath_source.1 (fun _ => none) "a.svg"
    "out.txt" true none none (by decide) (by decide) (by decide)

/-- When no signal matches and at most one explicit dimension is supplied,
the resolver fails with `SVGParseError`. -/
theorem getSvgDimensions_no_signal (content : List Char) (w h : Option ℚ)
    (h1 : searchWidthAttr content = none) (h2 : searchHeightAttr content = none)
    (h3 : searchViewBox content = none) (h4 : searchStyle content = none)
    (h5 : w = none ∨ h = none) :
    getSvgDimensions (some content) w h = .error .svgParseError := by
  match w, h with
  | some _, some _ => rcases h5 with h5 | h5 <;> exact absurd h5 (by simp)
  | some _, none => simp [getSvgDimensions, h1, h2, h3, h4]
  | none, some _ => simp [getSvgDimensions, h1, h2, h3, h4]
  | none, none => simp [getSvgDimensions, h1, h2, h3, h4]

/-- C7: with at most one explicit dimension and a readable document in which
none of the three signals matches (width/height attributes, viewBox, inline
style), resolution fails with `SVGParseError`; no default size is
substituted. -/
theorem no_signal_resolution_fails (content : List Char) (w h : Option ℚ)
    (h1 : searchWidthAttr content = none) (h2 : searchHeightAttr content = none)
    (h3 : searchViewBox content = none) (h4 : searchStyle content = none)
    (h5 : w = none ∨ h = none) :
    getSvgDimensions (some content) w h = .error .svgParseError :=
  getSvgDimensions_no_signal content w h h1 h2 h3 h4 h5

/-- Witness for C7: a document with no recognizable signal at all. -/
theorem no_signal_resolution_fails_witness :
    getSvgDimensions (some "<p/>".data) none none = .error .svgParseError :=
  no_signal_resolution_fails "<p/>".data none none rfl rfl rfl rfl (Or.inl rfl)

/-- C9: when exactly one explicit dimension is supplied, it is discarded —
resolution proceeds exactly as if neither had been supplied (both dimensions
come from the document), and when the document yields no signal the request
fails with `SVGParseError` despite the supplied dimension. -/
theorem single_explicit_dimension_discarded (fc : Option (List Char)) (w h : ℚ) :
    getSvgDimensions fc (some w) none = getSvgDimensions fc none none ∧
      getSvgDimensions fc none (some h) = getSvgDimensions fc none none ∧
      (∀ content : List Char, searchWidthAttr content = none →
        searchHeightAttr content = none → searchViewBox content = none →
        searchStyle content = none →
        getSvgDimensions (some content) (some w) none = .error .svgParseError) :=
  ⟨rfl, rfl, fun content h1 h2 h3 h4 =>
    getSvgDimensions_no_signal content (some w) none h1 h2 h3 h4 (Or.inr rfl)⟩

/-- Witness for C9 at a concrete signal-free document. -/
theorem single_explicit_dimension_discarded_witness :
    getSvgDimensions (some "<p/>".data) (some 5) none = .error .svgParseError :=
  (single_explicit_dimension_discarded (some "<p/>".data) 5 5).2.2 "<p/>".data
    rfl rfl rfl rfl

/-! ## Trace lemmas -/

theorem countE_append (e : Event) (l1 l2 : List Event) :
    countE e (l1 ++ l2) = countE e l1 + countE e l2 := by
  induction l1 with
  | nil => simp [countE]
  | cons x xs ih => simp [countE, ih]; omega

theorem releasesMatchAcquires_nil : releasesMatchAcquires [] :=
  fun _ => ⟨rfl, Nat.zero_le 1⟩

/-- The cleanup of one render cycle balances its acquisitions: around any
neutral middle segment (no acquire/release events), every resource is
acquired at most once and released exactly as often as acquired. -/
theorem balance_shape (h c s : ℕ) (hh : h ≠ 0) (l : List Event)
    (hl : ∀ r : Res, countE (Event.acquire r) l = 0 ∧ countE (Event.release r) l = 0) :
    releasesMatchAcquires (acquireTrace s c ++ (l ++ cleanupResources h c s)) := by
  intro r
  have hA := (hl r).1
  have hR := (hl r).2
  simp only [countE_append, hA, hR, acquireTrace, cleanupResources]
  by_cases hc : c = 0 <;> by_cases hs : s = 0 <;> cases r <;>
    simp [countE, countE_append, hh, hc, hs]

/-- Case analysis for `renderAfterHandle`: either the handle was null and
nothing happened, or the three creation calls ran and the run ended in a
render failure (with cleanup) or in success. -/
theorem renderAfterHandle_spec (n : Native) (cfg : Cfg) (h : ℕ) :
    renderAfterHandle n cfg h = (.error .cairoRenderError, []) ∨
      (h ≠ 0 ∧
        (renderAfterHandle n cfg h =
            (.error .cairoRenderError,
              acquireTrace (mkSurface n cfg) (mkContext n cfg) ++ [Event.renderCall] ++
                cleanupResources h (mkContext n cfg) (mkSurface n cfg)) ∨
          renderAfterHandle n cfg h =
            (.ok (h, mkContext n cfg, mkSurface n cfg),
              acquireTrace (mkSurface n cfg) (mkContext n cfg) ++ [Event.renderCall]))) := by
  by_cases h0 : h = 0
  · left; simp [renderAfterHandle, h0]
  · right
    refine ⟨h0, ?_⟩
    by_cases hst : n.renderCairo h (mkContext n cfg) = 1
    · right; simp [renderAfterHandle, h0, hst]
    · left; simp [renderAfterHandle, h0, hst]

/-- Case analysis for `_render`: every run either fails having performed no
resource event, or got a non-null handle and ends in a cleaned-up render
failure or in success with the acquisition trace. -/
theorem renderCore_spec (soup : List Char → Option Tag) (n : Native) (cfg : Cfg) :
    (∃ e, renderCore soup n cfg = (.error e, [])) ∨
      (∃ h, h ≠ 0 ∧
        (renderCore soup n cfg =
            (.error .cairoRenderError,
              acquireTrace (mkSurface n cfg) (mkContext n cfg) ++ [Event.renderCall] ++
                cleanupResources h (mkContext n cfg) (mkSurface n cfg)) ∨
          renderCore soup n cfg =
            (.ok (h, mkContext n cfg, mkSurface n cfg),
              acquireTrace (mkSurface n cfg) (mkContext n cfg) ++ [Event.renderCall]))) := by
  obtain ⟨src, tf, bg, wq, hq⟩ := cfg
  cases src with
  | filePath p =>
    rcases renderAfterHandle_spec n ⟨.filePath p, tf, bg, wq, hq⟩ (n.loadFromFile p) with
      h1 | ⟨hh, h1⟩
    · exact Or.inl ⟨.cairoRenderError, by simpa [renderCore] using h1⟩
    · exact Or.inr ⟨n.loadFromFile p, hh, by simpa [renderCore] using h1⟩
  | embedded g =>
    cases hsoup : soup g.xml with
    | none => exact Or.inl ⟨.attributeError, by simp [renderCore, hsoup]⟩
    | some t =>
      rcases renderAfterHandle_spec n ⟨.embedded g, tf, bg, wq, hq⟩ (n.loadFromData g.xml) with
        h1 | ⟨hh, h1⟩
      · exact Or.inl ⟨.cairoRenderError, by simpa [renderCore, hsoup, tagTruthy] using h1⟩
      · exact Or.inr ⟨n.loadFromData g.xml, hh,
          by simpa [renderCore, hsoup, tagTruthy] using h1⟩

theorem filter_acquireTrace (s c : ℕ) :
    (acquireTrace s c).filter isReleaseEv = [] := by
  by_cases hc : c = 0 <;> by_cases hs : s = 0 <;>
    simp [acquireTrace, isReleaseEv, hc, hs]

theorem filter_cleanupResources (h c s : ℕ) :
    (cleanupResources h c s).filter isReleaseEv = cleanupResources h c s := by
  by_cases hh : h = 0 <;> by_cases hc : c = 0 <;> by_cases hs : s = 0 <;>
    simp [cleanupResources, isReleaseEv, hh, hc, hs]

theorem cleanupResources_sublist (h c s : ℕ) :
    List.Sublist (cleanupResources h c s) releaseOrder := by
  by_cases hh : h = 0 <;> by_cases hc : c = 0 <;> by_cases hs : s = 0 <;>
    simp [cleanupResources, releaseOrder, hh, hc, hs]

/-! ## Resource-lifecycle claims -/

/-- C1: every failing run of the file-mode (`_save`) or buffer-mode
(`_tobytes`) render pipeline — document load failure, render failure, or PNG
encode failure — leaves a balanced trace: each native resource acquired
before the failure point was released exactly once before the error
propagated. -/
theorem failure_releases_every_acquired_resource (soup : List Char → Option Tag)
    (n : Native) (cfg : Cfg) :
    (∀ e tr, saveCore soup n cfg = (.error e, tr) → releasesMatchAcquires tr) ∧
      (∀ e tr, tobytesCore soup n cfg = (.error e, tr) → releasesMatchAcquires tr) := by
  have hneutral2 : ∀ r : Res,
      countE (Event.acquire r) [Event.renderCall, Event.pngWrite] = 0 ∧
        countE (Event.release r) [Event.renderCall, Event.pngWrite] = 0 :=
    fun r => ⟨by simp [countE], by simp [countE]⟩
  have hneutral3 : ∀ r : Res,
      countE (Event.acquire r) [Event.renderCall, Event.pngStream] = 0 ∧
        countE (Event.release r) [Event.renderCall, Event.pngStream] = 0 :=
    fun r => ⟨by simp [countE], by simp [countE]⟩
  have hneutral1 : ∀ r : Res,
      countE (Event.acquire r) [Event.renderCall] = 0 ∧
        countE (Event.release r) [Event.renderCall] = 0 :=
    fun r => ⟨by simp [countE], by simp [countE]⟩
  constructor
  · intro e tr heq
    unfold saveCore at heq
    by_cases ht : strTruthy cfg.to_file
    · rw [if_neg (by simp [ht])] at heq
      rcases renderCore_spec soup n cfg with ⟨e', he⟩ | ⟨h, hh, he | he⟩ <;> rw [he] at heq
      · simp at heq
        rcases heq with ⟨h1, h2⟩
        subst h2
        exact releasesMatchAcquires_nil
      · simp at heq
        rcases heq with ⟨h1, h2⟩
        subst h2
        exact balance_shape h _ _ hh [Event.renderCall] hneutral1
      · by_cases hw : n.writeToPng (mkSurface n cfg) (cfg.to_file.getD "") = 0
        · simp [hw] at heq
        · simp [hw] at heq
          rcases heq with ⟨h1, h2⟩
          subst h2
          exact balance_shape h _ _ hh [Event.renderCall, Event.pngWrite] hneutral2
    · rw [if_pos (by simp [ht])] at heq
      simp at heq
      rcases heq with ⟨h1, h2⟩
      subst h2
      exact releasesMatchAcquires_nil
  · intro e tr heq
    unfold tobytesCore at heq
    rcases renderCore_spec soup n cfg with ⟨e', he⟩ | ⟨h, hh, he | he⟩ <;> rw [he] at heq
    · simp at heq
      rcases heq with ⟨h1, h2⟩
      subst h2
      exact releasesMatchAcquires_nil
    · simp at heq
      rcases heq with ⟨h1, h2⟩
      subst h2
      exact balance_shape h _ _ hh [Event.renderCall] hneutral1
    · by_cases hw : n.writeToPngStream (mkSurface n cfg) = 0
      · simp [hw] at heq
      · simp [hw] at heq
        rcases heq with ⟨h1, h2⟩
        subst h2
        exact balance_shape h _ _ hh [Event.renderCall, Event.pngStream] hneutral3

/-- Witness for C1 at a concrete failing run: render failure on a working
loader, with all three resources acquired and then released. -/
theorem failure_releases_every_acquired_resource_witness :
    releasesMatchAcquires (saveCore soupNone natRenderFail cfgFileOut).2 :=
  (failure_releases_every_acquired_resource soupNone natRenderFail cfgFileOut).1
    .cairoRenderError _ rfl

/-- C2 (the code, as written): a successful stride query acquires the
document handle (and whatever the surface/context calls produced) but
performs no release whatsoever before returning — `_stride` has no cleanup,
so the triple stays resident, contradicting the specified
acquire-and-release behaviour. -/
theorem stride_query_leaves_resources_resident (soup : List Char → Option Tag)
    (n : Native) (cfg : Cfg) :
    ∀ v tr, strideCore soup n cfg = (.ok v, tr) →
      countE (Event.acquire .handle) tr = 1 ∧ tr.filter isReleaseEv = [] := by
  intro v tr heq
  unfold strideCore at heq
  rcases renderCore_spec soup n cfg with ⟨e', he⟩ | ⟨h, hh, he | he⟩ <;> rw [he] at heq <;>
    simp at heq
  rcases heq with ⟨h1, h2⟩
  subst h2
  constructor
  · by_cases hs0 : mkSurface n cfg = 0 <;> by_cases hc0 : mkContext n cfg = 0 <;>
      simp [countE_append, countE, acquireTrace, hs0, hc0]
  · simp [List.filter_append, filter_acquireTrace, isReleaseEv]

/-- Witness for C2: a fully successful backend, a stride query returning 7,
and a trace with the handle acquired and no release at all. -/
theorem stride_query_leaves_resources_resident_witness :
    countE (Event.acquire .handle) (strideCore soupNone natOk cfgFileOut).2 = 1 ∧
      (strideCore soupNone natOk cfgFileOut).2.filter isReleaseEv = [] :=
  stride_query_leaves_resources_resident soupNone natOk cfgFileOut 7 _ rfl

/-- C8: release order is the reverse of acquisition order.  When all three
resources are live, `_cleanup_resources` emits exactly context, surface,
then handle; and in every run of `_save`, `_tobytes` or `_render`, the
release events that do occur form a subsequence of that order. -/
theorem release_order_reverse_of_acquisition :
    (∀ h c s : ℕ, h ≠ 0 → c ≠ 0 → s ≠ 0 → cleanupResources h c s = releaseOrder) ∧
      (∀ (soup : List Char → Option Tag) (n : Native) (cfg : Cfg),
        List.Sublist ((saveCore soup n cfg).2.filter isReleaseEv) releaseOrder ∧
          List.Sublist ((tobytesCore soup n cfg).2.filter isReleaseEv) releaseOrder ∧
          List.Sublist ((renderCore soup n cfg).2.filter isReleaseEv) releaseOrder) := by
  constructor
  · intro h c s hh hc hs
    simp [cleanupResources, releaseOrder, hh, hc, hs]
  · intro soup n cfg
    refine ⟨?_, ?_, ?_⟩
    · unfold saveCore
      by_cases ht : strTruthy cfg.to_file
      · rw [if_neg (by simp [ht])]
        rcases renderCore_spec soup n cfg with ⟨e', he⟩ | ⟨h, hh, he | he⟩ <;> rw [he]
        · simp
        · simpa [List.filter_append, filter_acquireTrace, filter_cleanupResources,
            isReleaseEv] using cleanupResources_sublist h (mkContext n cfg) (mkSurface n cfg)
        · by_cases hw : n.writeToPng (mkSurface n cfg) (cfg.to_file.getD "") = 0 <;>
            simpa [hw, List.filter_append, filter_acquireTrace, filter_cleanupResources,
              isReleaseEv] using cleanupResources_sublist h (mkContext n cfg) (mkSurface n cfg)
      · rw [if_pos (by simp [ht])]
        simp
    · unfold tobytesCore
      rcases renderCore_spec soup n cfg with ⟨e', he⟩ | ⟨h, hh, he | he⟩ <;> rw [he]
      · simp
      · simpa [List.filter_append, filter_acquireTrace, filter_cleanupResources,
          isReleaseEv] using cleanupResources_sublist h (mkContext n cfg) (mkSurface n cfg)
      · by_cases hw : n.writeToPngStream (mkSurface n cfg) = 0 <;>
          simpa [hw, List.filter_append, filter_acquireTrace, filter_cleanupResources,
            isReleaseEv] using cleanupResources_sublist h (mkContext n cfg) (mkSurface n cfg)
    · rcases renderCore_spec soup n cfg with ⟨e', he⟩ | ⟨h, hh, he | he⟩ <;> rw [he]
      · simp
      · simpa [List.filter_append, filter_acquireTrace, filter_cleanupResources,
          isReleaseEv] using cleanupResources_sublist h (mkContext n cfg) (mkSurface n cfg)
      · simp [List.filter_append, filter_acquireTrace, isReleaseEv]

/-- Witness for C8 with all three resources live. -/
theorem release_order_reverse_of_acquisition_witness :
    cleanupResources 1 2 3 = releaseOrder :=
  release_order_reverse_of_acquisition.1 1 2 3 (by decide) (by decide) (by decide)

/-- C10: an `XmlGraphic` built from bytes with no root `svg` element fails
at construction with `AttributeError` (the attribute lookup on the missing root), so
no render session begins; and the render-time
`SurfaceXmlRenderingFormatError` branch is unreachable — `_render` re-runs
the `XmlGraphic` constructor (raising `AttributeError` first when the root
is missing) and a found bs4 tag is always truthy. -/
theorem embedded_missing_root_fails_at_construction :
    (∀ (soup : List Char → Option Tag) (xml : List Char), soup xml = none →
      xmlGraphicInit soup xml = .error .attributeError) ∧
      (∀ (soup : List Char → Option Tag) (n : Native) (cfg : Cfg),
        (renderCore soup n cfg).1 ≠ .error .surfaceXmlFormatError) := by
  constructor
  · intro soup xml hx
    simp [xmlGraphicInit, hx]
  · intro soup n cfg
    obtain ⟨src, tf, bg, wq, hq⟩ := cfg
    have hra : ∀ h : ℕ,
        (renderAfterHandle n ⟨src, tf, bg, wq, hq⟩ h).1 ≠ .error .surfaceXmlFormatError := by
      intro h
      rcases renderAfterHandle_spec n ⟨src, tf, bg, wq, hq⟩ h with h1 | ⟨hh, h1 | h1⟩ <;>
        rw [h1] <;> simp
    cases src with
    | filePath p => exact hra (n.loadFromFile p)
    | embedded g =>
      cases hsoup : soup g.xml with
      | none => simp [renderCore, hsoup]
      | some t =>
        simpa [renderCore, hsoup, tagTruthy] using hra (n.loadFromData g.xml)

/-- Witness for C10: a parser that finds no root `svg` element. -/
theorem embedded_missing_root_fails_at_construction_witness :
    xmlGraphicInit soupNone "<p/>".data = .error .attributeError :=
  embedded_missing_root_fails_at_construction.1 soupNone "<p/>".data rfl

end SvgEditor
